import Mathlib

/-!
Verification of the androidoscopy session broker (`src/server/src`).

Shallow embedding conventions:
* `serde_json::Value` is modelled by `Json`; JSON objects are ordered lists of
  key/value pairs, matching the textual field order of a frame.
* `chrono::DateTime<Utc>` timestamps that only travel through the wire protocol
  are modelled as verbatim RFC3339 strings (chrono's serializer is the identity
  on its own canonical output, which all concrete examples use).  Timestamps the
  broker produces itself and compares arithmetically (`started_at`, `ended_at`)
  are modelled as `Int` milliseconds since the epoch; `Utc::now()` and
  `Uuid::new_v4()` are modelled as explicit parameters of the operations that
  call them.
* `tokio::sync::mpsc::Sender` handles are modelled as opaque `Nat` tokens: the
  broker only stores, clears and compares them.
* `std::collections::HashMap<String, Session>` is modelled as an association
  list; iteration order of the map is arbitrary, the list order stands in for it.
-/

namespace Androidoscopy

/-- JSON values (`serde_json::Value`); objects keep their textual field order. -/
inductive Json where
  | null : Json
  | bool : Bool → Json
  | num : Int → Json
  | str : String → Json
  | arr : List Json → Json
  | obj : List (String × Json) → Json

/-- Model of `protocol.rs` `DeviceInfo`. -/
structure DeviceInfo where
  device_id : String
  manufacturer : String
  model : String
  android_version : String
  api_level : Int
  is_emulator : Bool

/-- Model of `protocol.rs` `LogLevel`. -/
inductive LogLevel where
  | verbose | debug | info | warn | error
deriving DecidableEq

/-- Model of `protocol.rs` `LogPayload`. -/
structure LogPayload where
  level : LogLevel
  tag : Option String
  message : String
  throwable : Option String

/-- Model of `protocol.rs` `RegisterPayload`. -/
structure RegisterPayload where
  protocol_version : String
  app_name : String
  package_name : String
  version_name : String
  device : DeviceInfo
  dashboard : Json

/-- Model of `protocol.rs` `ActionResultPayload`. -/
structure ActionResultPayload where
  action_id : String
  success : Bool
  message : Option String
  data : Option Json

/-- Model of `protocol.rs` `AppMessage` (producer → broker).  Wire timestamps are kept
as verbatim strings. -/
inductive AppMessage where
  | register (timestamp : String) (payload : RegisterPayload)
  | data (timestamp : String) (session_id : String) (payload : Json)
  | log (timestamp : String) (session_id : String) (payload : LogPayload)
  | actionResult (timestamp : String) (session_id : String) (payload : ActionResultPayload)

/-- Model of `protocol.rs` `RegisteredPayload`. -/
structure RegisteredPayload where
  session_id : String

/-- Model of `protocol.rs` `ActionPayload`. -/
structure ActionPayload where
  action_id : String
  action : String
  args : Option Json

/-- Model of `protocol.rs` `ErrorPayload`. -/
structure ErrorPayload where
  code : String
  message : String

/-- Model of `protocol.rs` `ServiceToAppMessage` (broker → producer). -/
inductive ServiceToAppMessage where
  | registered (timestamp : String) (payload : RegisteredPayload)
  | action (timestamp : String) (session_id : String) (payload : ActionPayload)
  | error (timestamp : String) (payload : ErrorPayload)

/-- Model of `protocol.rs` `LogEntry`. -/
structure LogEntry where
  timestamp : String
  level : LogLevel
  tag : Option String
  message : String
  throwable : Option String

/-- Model of `protocol.rs` `SessionInfo`. -/
structure SessionInfo where
  session_id : String
  app_name : String
  package_name : String
  version_name : String
  device : DeviceInfo
  dashboard : Json
  started_at : String
  latest_data : Option Json
  recent_logs : List LogEntry

/-- Model of `protocol.rs` `SessionStartedPayload`. -/
structure SessionStartedPayload where
  session : SessionInfo

/-- Model of `protocol.rs` `SessionDataPayload`. -/
structure SessionDataPayload where
  session_id : String
  data : Json

/-- Model of `protocol.rs` `SessionLogPayload`. -/
structure SessionLogPayload where
  session_id : String
  log : LogEntry

/-- Model of `protocol.rs` `SessionEndedPayload`. -/
structure SessionEndedPayload where
  session_id : String

/-- Model of `protocol.rs` `ActionResultToDashboardPayload`. -/
structure ActionResultToDashboardPayload where
  session_id : String
  action_id : String
  success : Bool
  message : Option String
  data : Option Json

/-- Model of `protocol.rs` `SyncPayload`. -/
structure SyncPayload where
  sessions : List SessionInfo

/-- Model of `protocol.rs` `ServiceToDashboardMessage` (broker → consumer). -/
inductive ServiceToDashboardMessage where
  | sync (payload : SyncPayload)
  | sessionStarted (payload : SessionStartedPayload)
  | sessionResumed (payload : SessionStartedPayload)
  | sessionData (timestamp : String) (payload : SessionDataPayload)
  | sessionLog (timestamp : String) (payload : SessionLogPayload)
  | sessionEnded (timestamp : String) (payload : SessionEndedPayload)
  | actionResult (timestamp : String) (payload : ActionResultToDashboardPayload)

/-- Model of `protocol.rs` `DashboardActionPayload`. -/
structure DashboardActionPayload where
  session_id : String
  action_id : String
  action : String
  args : Option Json

/-- Model of `protocol.rs` `DashboardToServiceMessage` (consumer → broker). -/
inductive DashboardToServiceMessage where
  | action (payload : DashboardActionPayload)

-- === Message size limits (`protocol.rs`) ===

def MAX_MESSAGE_SIZE : Nat := 1024 * 1024
def MAX_LOG_MESSAGE_SIZE : Nat := 64 * 1024
def MAX_LOG_THROWABLE_SIZE : Nat := 256 * 1024

/-- Model of `protocol.rs` `ValidationError`. -/
inductive ValidationError where
  | logMessageTooLarge
  | logThrowableTooLarge
deriving DecidableEq

/-- Model of `AppMessage::validate` from `protocol.rs`.  Rust `String::len` is the
UTF-8 byte length, i.e. `String.utf8ByteSize`. -/
def AppMessage.validate : AppMessage → Except ValidationError Unit
  | .log _ _ payload =>
      if payload.message.utf8ByteSize > MAX_LOG_MESSAGE_SIZE then
        .error ValidationError.logMessageTooLarge
      else match payload.throwable with
        | some throwable =>
            if throwable.utf8ByteSize > MAX_LOG_THROWABLE_SIZE then
              .error ValidationError.logThrowableTooLarge
            else .ok ()
        | none => .ok ()
  | _ => .ok ()

-- === Ring buffer (`session.rs`) ===

/-- Model of `session.rs` `RingBuffer<T>`: the `VecDeque` is modelled as a list,
front first. -/
structure RingBuffer (T : Type) where
  items : List T
  capacity : Nat

def RingBuffer.new (T : Type) (capacity : Nat) : RingBuffer T :=
  ⟨[], capacity⟩

/-- Model of `RingBuffer::push`: if `len >= capacity`, `pop_front` first, then
`push_back`.  (`List.tail` is `pop_front`, a no-op on the empty list, exactly
like `VecDeque::pop_front`.) -/
def RingBuffer.push (b : RingBuffer T) (item : T) : RingBuffer T :=
  if b.items.length ≥ b.capacity then
    ⟨b.items.tail ++ [item], b.capacity⟩
  else
    ⟨b.items ++ [item], b.capacity⟩

def RingBuffer.len (b : RingBuffer T) : Nat := b.items.length

def RingBuffer.clear (b : RingBuffer T) : RingBuffer T :=
  ⟨[], b.capacity⟩

/-- A sequence of `push`es, in order (the `iter()` view of the result is
`items`, front to back, oldest first). -/
def RingBuffer.pushAll (b : RingBuffer T) (xs : List T) : RingBuffer T :=
  xs.foldl RingBuffer.push b

-- === Session (`session.rs`) ===

/-- Model of `session.rs` `DataMessage`. -/
structure DataMessage where
  timestamp : String
  payload : Json

/-- Model of `session.rs` `LogMessage`. -/
structure LogMessage where
  timestamp : String
  payload : LogPayload

/-- Model of `session.rs` `Session`.  `started_at`/`ended_at` are broker-side clock
readings (Int milliseconds); `app_sender` is an opaque channel token. -/
structure Session where
  id : String
  app_name : String
  package_name : String
  version_name : String
  device : DeviceInfo
  dashboard_schema : Json
  started_at : Int
  ended_at : Option Int
  data_buffer : RingBuffer DataMessage
  log_buffer : RingBuffer LogMessage
  network_requests : RingBuffer Json
  app_sender : Option Nat

/-- Model of `Session::new`.  `Uuid::new_v4().to_string()` and `Utc::now()` are the
explicit parameters `freshId` and `now`. -/
def Session.new (register : RegisterPayload) (data_buffer_size : Nat)
    (log_buffer_size : Nat) (app_sender : Nat) (freshId : String) (now : Int) :
    Session where
  id := freshId
  app_name := register.app_name
  package_name := register.package_name
  version_name := register.version_name
  device := register.device
  dashboard_schema := register.dashboard
  started_at := now
  ended_at := none
  data_buffer := RingBuffer.new DataMessage data_buffer_size
  log_buffer := RingBuffer.new LogMessage log_buffer_size
  network_requests := RingBuffer.new Json 500
  app_sender := some app_sender

def Session.add_data (s : Session) (timestamp : String) (payload : Json) :
    Session :=
  { s with data_buffer := s.data_buffer.push ⟨timestamp, payload⟩ }

def Session.clear_network_requests (s : Session) : Session :=
  { s with network_requests := s.network_requests.clear }

def Session.add_log (s : Session) (timestamp : String) (payload : LogPayload) :
    Session :=
  { s with log_buffer := s.log_buffer.push ⟨timestamp, payload⟩ }

def Session.is_active (s : Session) : Bool := s.ended_at.isNone

/-- Model of `Session::end` (the name `end` is reserved in Lean).  `Utc::now()` is `now`. -/
def Session.end' (s : Session) (now : Int) : Session :=
  { s with ended_at := some now, app_sender := none }

def Session.resume (s : Session) (app_sender : Nat) : Session :=
  { s with ended_at := none, app_sender := some app_sender }

-- === Session manager (`session.rs`) ===

/-- Model of `chrono::Duration::num_seconds` applied to a difference of millisecond
clock readings: whole seconds, truncated toward zero. -/
def numSeconds (millis : Int) : Int := millis.tdiv 1000

/-- Model of `session.rs` `SessionManager`.  The `HashMap<String, Session>` is an
association list; dashboard senders are opaque channel tokens. -/
structure SessionManager where
  sessions : List (String × Session)
  dashboard_senders : List Nat
  data_buffer_size : Nat
  log_buffer_size : Nat
  ended_session_ttl_seconds : Nat

def SessionManager.new (data_buffer_size log_buffer_size : Nat)
    (ended_session_ttl_seconds : Nat) : SessionManager :=
  ⟨[], [], data_buffer_size, log_buffer_size, ended_session_ttl_seconds⟩

/-- The predicate of the resumption scan in `SessionManager::create_session`:
an ended session from the same device and package. -/
def resumableFor (register : RegisterPayload) (s : Session) : Bool :=
  s.ended_at.isSome && s.device.device_id == register.device.device_id
    && s.package_name == register.package_name

/-- Model of `HashMap::get_mut` followed by an in-place mutation: rewrite the entry
with the given key (a no-op when the key is absent). -/
def updateSession (l : List (String × Session)) (k : String)
    (f : Session → Session) : List (String × Session) :=
  l.map (fun p => if p.1 == k then (p.1, f p.2) else p)

/-- Model of `HashMap::insert`: replace the binding when the key is present, else add
it. -/
def insertSession (l : List (String × Session)) (k : String) (v : Session) :
    List (String × Session) :=
  if l.any (fun p => p.1 == k) then
    l.map (fun p => if p.1 == k then (k, v) else p)
  else
    l ++ [(k, v)]

/-- Model of `SessionManager::create_session`.  Returns the `(session_id, resumed)`
pair and the updated manager; `freshId`/`now` stand for `Uuid::new_v4()` and
`Utc::now()` inside `Session::new`. -/
def SessionManager.create_session (m : SessionManager)
    (register : RegisterPayload) (app_sender : Nat) (freshId : String)
    (now : Int) : (String × Bool) × SessionManager :=
  match m.sessions.find? (fun p => resumableFor register p.2) with
  | some (session_id, _) =>
      ((session_id, true),
       { m with sessions :=
          updateSession m.sessions session_id (fun s => s.resume app_sender) })
  | none =>
      let session := Session.new register m.data_buffer_size
        m.log_buffer_size app_sender freshId now
      ((freshId, false),
       { m with sessions := insertSession m.sessions freshId session })

/-- Model of `SessionManager::end_session` (`Utc::now()` inside `Session::end` is
`now`). -/
def SessionManager.end_session (m : SessionManager) (session_id : String)
    (now : Int) : SessionManager :=
  { m with sessions := updateSession m.sessions session_id (fun s => s.end' now) }

def SessionManager.get_session (m : SessionManager) (session_id : String) :
    Option Session :=
  (m.sessions.find? (fun p => p.1 == session_id)).map (fun p => p.2)

/-- Model of `SessionManager::add_data`: forwards to the session, `false` on an
unknown id.  (In Rust the map is mutated in place; here the updated manager is
returned alongside the Bool.) -/
def SessionManager.add_data (m : SessionManager) (session_id : String)
    (timestamp : String) (data : Json) : Bool × SessionManager :=
  if m.sessions.any (fun p => p.1 == session_id) then
    (true, { m with
      sessions :=
        updateSession m.sessions session_id (fun s => s.add_data timestamp data) })
  else
    (false, m)

def SessionManager.add_log (m : SessionManager) (session_id : String)
    (timestamp : String) (log : LogPayload) : Bool × SessionManager :=
  if m.sessions.any (fun p => p.1 == session_id) then
    (true, { m with
      sessions :=
        updateSession m.sessions session_id (fun s => s.add_log timestamp log) })
  else
    (false, m)

/-- Model of `SessionManager::cleanup_ended_sessions`; `Utc::now()` is `now`.  A
session is retained when it is active or when
`now.signed_duration_since(ended_at).num_seconds() < ttl`. -/
def SessionManager.cleanup_ended_sessions (m : SessionManager) (now : Int) :
    SessionManager :=
  { m with sessions := m.sessions.filter (fun p =>
      match p.2.ended_at with
      | some ended_at =>
          decide (numSeconds (now - ended_at) < (m.ended_session_ttl_seconds : Int))
      | none => true) }

-- === Handler step functions (`handlers.rs`) ===

/-- Whether the per-connection read loop keeps running after a frame. -/
inductive LoopCtl where
  | keepOpen
  | closeChannel
deriving DecidableEq

/-- One inbound frame on the producer channel, after WebSocket decoding:
a text frame (with the result of `serde_json::from_str`, `none` on parse
failure), a close frame, an ignored binary/ping/pong frame, or a channel
error. -/
inductive AppFrame where
  | text (parsed : Option AppMessage)
  | close
  | other
  | chanError

/-- The `Registered`-state handling of one parsed producer message in
`handle_app_connection`'s main loop: validate, check the embedded session id
against the bound one, update the session, and emit the dashboard broadcasts.
Returns the updated manager and the list of messages broadcast to dashboards. -/
def registeredAppStep (m : SessionManager) (bound : String)
    (msg : AppMessage) : SessionManager × List ServiceToDashboardMessage :=
  match msg.validate with
  | .error _ => (m, [])
  | .ok _ =>
    match msg with
    | .register _ _ => (m, [])
    | .data timestamp session_id payload =>
        if session_id == bound then
          let m' := (m.add_data bound timestamp payload).2
          (m', [ServiceToDashboardMessage.sessionData timestamp ⟨bound, payload⟩])
        else (m, [])
    | .log timestamp session_id payload =>
        if session_id == bound then
          let m' := (m.add_log bound timestamp payload).2
          let entry : LogEntry :=
            ⟨timestamp, payload.level, payload.tag, payload.message, payload.throwable⟩
          (m', [ServiceToDashboardMessage.sessionLog timestamp ⟨bound, entry⟩])
        else (m, [])
    | .actionResult timestamp session_id payload =>
        if session_id == bound then
          (m, [ServiceToDashboardMessage.actionResult timestamp
            ⟨bound, payload.action_id, payload.success, payload.message, payload.data⟩])
        else (m, [])

/-- One iteration of `handle_app_connection`'s main (registered) loop on an
inbound frame: only a close frame or a channel error leaves the loop; parse
and validation failures keep the channel open. -/
def appFrameStep (m : SessionManager) (bound : String) (f : AppFrame) :
    SessionManager × List ServiceToDashboardMessage × LoopCtl :=
  match f with
  | .text none => (m, [], LoopCtl.keepOpen)
  | .text (some msg) =>
      let r := registeredAppStep m bound msg
      (r.1, r.2, LoopCtl.keepOpen)
  | .close => (m, [], LoopCtl.closeChannel)
  | .other => (m, [], LoopCtl.keepOpen)
  | .chanError => (m, [], LoopCtl.closeChannel)

/-- The ACTION handling in `handle_dashboard_connection`: the
`"network_clear"` side effect runs first (keyed only on session existence),
then the ACTION is enqueued to the producer outbox when the session exists
and is attached.  Returns the updated manager and the attempted enqueue
(producer outbox token with the message), `none` when the frame is dropped.
`Utc::now()` is `now`. -/
def dashboardActionStep (m : SessionManager) (payload : DashboardActionPayload)
    (now : String) : SessionManager × Option (Nat × ServiceToAppMessage) :=
  let m1 :=
    if payload.action == "network_clear" then
      { m with sessions :=
        updateSession m.sessions payload.session_id Session.clear_network_requests }
    else m
  match m1.get_session payload.session_id with
  | some session =>
      match session.app_sender with
      | some tx =>
          (m1, some (tx, ServiceToAppMessage.action now payload.session_id
            ⟨payload.action_id, payload.action, payload.args⟩))
      | none => (m1, none)
  | none => (m1, none)

-- === Reachable registry states (for the lifecycle invariant) ===

/-- Registry states reachable through the public operations named by the
lifecycle invariant: the fresh manager, `create_session` (which performs
`Session::new` or `Session::resume`) and `end_session` (which performs
`Session::end`). -/
inductive Reachable : SessionManager → Prop where
  | init (d l ttl : Nat) : Reachable (SessionManager.new d l ttl)
  | create (m : SessionManager) (register : RegisterPayload) (app_sender : Nat)
      (freshId : String) (now : Int) : Reachable m →
      Reachable (m.create_session register app_sender freshId now).2
  | end_step (m : SessionManager) (session_id : String) (now : Int) :
      Reachable m → Reachable (m.end_session session_id now)

/-- The per-session lifecycle invariant: the session is ended exactly when its
producer outbox is gone. -/
def sessionLifecycleInv (s : Session) : Bool :=
  s.ended_at.isSome == s.app_sender.isNone

-- === Codec (serde derive semantics of `protocol.rs`) ===

/-!
The four message families derive `Serialize`/`Deserialize` with
`#[serde(tag = "type")]`.  Serialization emits the `"type"` discriminator
first and then the variant fields in declaration order, `None` options as
`null`.  Deserialization looks fields up by name (order-insensitive), treats
a missing or `null` optional field as `None`, and fails on a missing required
field or a wrong shape.  Wire timestamps are carried verbatim as strings.
-/

def Json.get? (j : Json) (k : String) : Option Json :=
  match j with
  | .obj fields => (fields.find? (fun p => p.1 == k)).map (fun p => p.2)
  | _ => none

def Json.asStr : Json → Option String
  | .str s => some s
  | _ => none

def Json.asBool : Json → Option Bool
  | .bool b => some b
  | _ => none

def Json.asInt : Json → Option Int
  | .num n => some n
  | _ => none

def getStr (j : Json) (k : String) : Option String :=
  (j.get? k).bind Json.asStr

def getBool (j : Json) (k : String) : Option Bool :=
  (j.get? k).bind Json.asBool

def getInt (j : Json) (k : String) : Option Int :=
  (j.get? k).bind Json.asInt

/-- An `Option<String>` field: missing or `null` is `None`. -/
def getOptStr (j : Json) (k : String) : Option (Option String) :=
  match j.get? k with
  | none => some none
  | some Json.null => some none
  | some (Json.str s) => some (some s)
  | some _ => none

/-- An `Option<Value>` field: missing or `null` is `None`. -/
def getOptJson (j : Json) (k : String) : Option (Option Json) :=
  match j.get? k with
  | none => some none
  | some Json.null => some none
  | some v => some (some v)

def serializeOptStr : Option String → Json
  | none => Json.null
  | some s => Json.str s

def serializeOptJson : Option Json → Json
  | none => Json.null
  | some v => v

def parseLogLevel : Json → Option LogLevel
  | Json.str "VERBOSE" => some LogLevel.verbose
  | Json.str "DEBUG" => some LogLevel.debug
  | Json.str "INFO" => some LogLevel.info
  | Json.str "WARN" => some LogLevel.warn
  | Json.str "ERROR" => some LogLevel.error
  | _ => none

def serializeLogLevel : LogLevel → Json
  | LogLevel.verbose => Json.str "VERBOSE"
  | LogLevel.debug => Json.str "DEBUG"
  | LogLevel.info => Json.str "INFO"
  | LogLevel.warn => Json.str "WARN"
  | LogLevel.error => Json.str "ERROR"

def parseDeviceInfo (j : Json) : Option DeviceInfo := do
  let device_id ← getStr j "device_id"
  let manufacturer ← getStr j "manufacturer"
  let model ← getStr j "model"
  let android_version ← getStr j "android_version"
  let api_level ← getInt j "api_level"
  let isEmu ← getBool j "is_emulator"
  pure ⟨device_id, manufacturer, model, android_version, api_level, isEmu⟩

def serializeDeviceInfo (d : DeviceInfo) : Json :=
  Json.obj [("device_id", Json.str d.device_id),
    ("manufacturer", Json.str d.manufacturer),
    ("model", Json.str d.model),
    ("android_version", Json.str d.android_version),
    ("api_level", Json.num d.api_level),
    ("is_emulator", Json.bool d.is_emulator)]

def parseRegisterPayload (j : Json) : Option RegisterPayload := do
  let protocol_version ← getStr j "protocol_version"
  let app_name ← getStr j "app_name"
  let package_name ← getStr j "package_name"
  let version_name ← getStr j "version_name"
  let deviceJson ← j.get? "device"
  let device ← parseDeviceInfo deviceJson
  let dashboard ← j.get? "dashboard"
  pure ⟨protocol_version, app_name, package_name, version_name, device, dashboard⟩

def serializeRegisterPayload (p : RegisterPayload) : Json :=
  Json.obj [("protocol_version", Json.str p.protocol_version),
    ("app_name", Json.str p.app_name),
    ("package_name", Json.str p.package_name),
    ("version_name", Json.str p.version_name),
    ("device", serializeDeviceInfo p.device),
    ("dashboard", p.dashboard)]

def parseLogPayload (j : Json) : Option LogPayload := do
  let levelJson ← j.get? "level"
  let level ← parseLogLevel levelJson
  let tg ← getOptStr j "tag"
  let message ← getStr j "message"
  let throwable ← getOptStr j "throwable"
  pure ⟨level, tg, message, throwable⟩

def serializeLogPayload (p : LogPayload) : Json :=
  Json.obj [("level", serializeLogLevel p.level),
    ("tag", serializeOptStr p.tag),
    ("message", Json.str p.message),
    ("throwable", serializeOptStr p.throwable)]

def parseActionResultPayload (j : Json) : Option ActionResultPayload := do
  let action_id ← getStr j "action_id"
  let success ← getBool j "success"
  let message ← getOptStr j "message"
  let dt ← getOptJson j "data"
  pure ⟨action_id, success, message, dt⟩

def serializeActionResultPayload (p : ActionResultPayload) : Json :=
  Json.obj [("action_id", Json.str p.action_id),
    ("success", Json.bool p.success),
    ("message", serializeOptStr p.message),
    ("data", serializeOptJson p.data)]

def parseAppMessage (j : Json) : Option AppMessage := do
  let t ← getStr j "type"
  match t with
  | "REGISTER" => do
      let timestamp ← getStr j "timestamp"
      let payloadJson ← j.get? "payload"
      let payload ← parseRegisterPayload payloadJson
      pure (AppMessage.register timestamp payload)
  | "DATA" => do
      let timestamp ← getStr j "timestamp"
      let session_id ← getStr j "session_id"
      let payload ← j.get? "payload"
      pure (AppMessage.data timestamp session_id payload)
  | "LOG" => do
      let timestamp ← getStr j "timestamp"
      let session_id ← getStr j "session_id"
      let payloadJson ← j.get? "payload"
      let payload ← parseLogPayload payloadJson
      pure (AppMessage.log timestamp session_id payload)
  | "ACTION_RESULT" => do
      let timestamp ← getStr j "timestamp"
      let session_id ← getStr j "session_id"
      let payloadJson ← j.get? "payload"
      let payload ← parseActionResultPayload payloadJson
      pure (AppMessage.actionResult timestamp session_id payload)
  | _ => none

def serializeAppMessage : AppMessage → Json
  | AppMessage.register timestamp payload =>
      Json.obj [("type", Json.str "REGISTER"),
        ("timestamp", Json.str timestamp),
        ("payload", serializeRegisterPayload payload)]
  | AppMessage.data timestamp session_id payload =>
      Json.obj [("type", Json.str "DATA"),
        ("timestamp", Json.str timestamp),
        ("session_id", Json.str session_id),
        ("payload", payload)]
  | AppMessage.log timestamp session_id payload =>
      Json.obj [("type", Json.str "LOG"),
        ("timestamp", Json.str timestamp),
        ("session_id", Json.str session_id),
        ("payload", serializeLogPayload payload)]
  | AppMessage.actionResult timestamp session_id payload =>
      Json.obj [("type", Json.str "ACTION_RESULT"),
        ("timestamp", Json.str timestamp),
        ("session_id", Json.str session_id),
        ("payload", serializeActionResultPayload payload)]

def parseActionPayload (j : Json) : Option ActionPayload := do
  let action_id ← getStr j "action_id"
  let action ← getStr j "action"
  let args ← getOptJson j "args"
  pure ⟨action_id, action, args⟩

def serializeActionPayload (p : ActionPayload) : Json :=
  Json.obj [("action_id", Json.str p.action_id),
    ("action", Json.str p.action),
    ("args", serializeOptJson p.args)]

def parseServiceToAppMessage (j : Json) : Option ServiceToAppMessage := do
  let t ← getStr j "type"
  match t with
  | "REGISTERED" => do
      let timestamp ← getStr j "timestamp"
      let payloadJson ← j.get? "payload"
      let session_id ← getStr payloadJson "session_id"
      pure (ServiceToAppMessage.registered timestamp ⟨session_id⟩)
  | "ACTION" => do
      let timestamp ← getStr j "timestamp"
      let session_id ← getStr j "session_id"
      let payloadJson ← j.get? "payload"
      let payload ← parseActionPayload payloadJson
      pure (ServiceToAppMessage.action timestamp session_id payload)
  | "ERROR" => do
      let timestamp ← getStr j "timestamp"
      let payloadJson ← j.get? "payload"
      let code ← getStr payloadJson "code"
      let message ← getStr payloadJson "message"
      pure (ServiceToAppMessage.error timestamp ⟨code, message⟩)
  | _ => none

def serializeServiceToAppMessage : ServiceToAppMessage → Json
  | ServiceToAppMessage.registered timestamp payload =>
      Json.obj [("type", Json.str "REGISTERED"),
        ("timestamp", Json.str timestamp),
        ("payload", Json.obj [("session_id", Json.str payload.session_id)])]
  | ServiceToAppMessage.action timestamp session_id payload =>
      Json.obj [("type", Json.str "ACTION"),
        ("timestamp", Json.str timestamp),
        ("session_id", Json.str session_id),
        ("payload", serializeActionPayload payload)]
  | ServiceToAppMessage.error timestamp payload =>
      Json.obj [("type", Json.str "ERROR"),
        ("timestamp", Json.str timestamp),
        ("payload", Json.obj [("code", Json.str payload.code),
          ("message", Json.str payload.message)])]

def parseLogEntry (j : Json) : Option LogEntry := do
  let timestamp ← getStr j "timestamp"
  let levelJson ← j.get? "level"
  let level ← parseLogLevel levelJson
  let tg ← getOptStr j "tag"
  let message ← getStr j "message"
  let throwable ← getOptStr j "throwable"
  pure ⟨timestamp, level, tg, message, throwable⟩

def serializeLogEntry (e : LogEntry) : Json :=
  Json.obj [("timestamp", Json.str e.timestamp),
    ("level", serializeLogLevel e.level),
    ("tag", serializeOptStr e.tag),
    ("message", Json.str e.message),
    ("throwable", serializeOptStr e.throwable)]

def parseSessionInfo (j : Json) : Option SessionInfo := do
  let session_id ← getStr j "session_id"
  let app_name ← getStr j "app_name"
  let package_name ← getStr j "package_name"
  let version_name ← getStr j "version_name"
  let deviceJson ← j.get? "device"
  let device ← parseDeviceInfo deviceJson
  let dashboard ← j.get? "dashboard"
  let started_at ← getStr j "started_at"
  let latest_data ← getOptJson j "latest_data"
  let logsJson ← j.get? "recent_logs"
  match logsJson with
  | Json.arr logs => do
      let recent_logs ← logs.mapM parseLogEntry
      pure ⟨session_id, app_name, package_name, version_name, device,
        dashboard, started_at, latest_data, recent_logs⟩
  | _ => none

def serializeSessionInfo (s : SessionInfo) : Json :=
  Json.obj [("session_id", Json.str s.session_id),
    ("app_name", Json.str s.app_name),
    ("package_name", Json.str s.package_name),
    ("version_name", Json.str s.version_name),
    ("device", serializeDeviceInfo s.device),
    ("dashboard", s.dashboard),
    ("started_at", Json.str s.started_at),
    ("latest_data", serializeOptJson s.latest_data),
    ("recent_logs", Json.arr (s.recent_logs.map serializeLogEntry))]

def parseServiceToDashboardMessage (j : Json) :
    Option ServiceToDashboardMessage := do
  let t ← getStr j "type"
  match t with
  | "SYNC" => do
      let payloadJson ← j.get? "payload"
      let sessionsJson ← payloadJson.get? "sessions"
      match sessionsJson with
      | Json.arr sessions => do
          let infos ← sessions.mapM parseSessionInfo
          pure (ServiceToDashboardMessage.sync ⟨infos⟩)
      | _ => none
  | "SESSION_STARTED" => do
      let payloadJson ← j.get? "payload"
      let sessionJson ← payloadJson.get? "session"
      let session ← parseSessionInfo sessionJson
      pure (ServiceToDashboardMessage.sessionStarted ⟨session⟩)
  | "SESSION_RESUMED" => do
      let payloadJson ← j.get? "payload"
      let sessionJson ← payloadJson.get? "session"
      let session ← parseSessionInfo sessionJson
      pure (ServiceToDashboardMessage.sessionResumed ⟨session⟩)
  | "SESSION_DATA" => do
      let timestamp ← getStr j "timestamp"
      let payloadJson ← j.get? "payload"
      let session_id ← getStr payloadJson "session_id"
      let dt ← payloadJson.get? "data"
      pure (ServiceToDashboardMessage.sessionData timestamp ⟨session_id, dt⟩)
  | "SESSION_LOG" => do
      let timestamp ← getStr j "timestamp"
      let payloadJson ← j.get? "payload"
      let session_id ← getStr payloadJson "session_id"
      let logJson ← payloadJson.get? "log"
      let log ← parseLogEntry logJson
      pure (ServiceToDashboardMessage.sessionLog timestamp ⟨session_id, log⟩)
  | "SESSION_ENDED" => do
      let timestamp ← getStr j "timestamp"
      let payloadJson ← j.get? "payload"
      let session_id ← getStr payloadJson "session_id"
      pure (ServiceToDashboardMessage.sessionEnded timestamp ⟨session_id⟩)
  | "ACTION_RESULT" => do
      let timestamp ← getStr j "timestamp"
      let payloadJson ← j.get? "payload"
      let session_id ← getStr payloadJson "session_id"
      let action_id ← getStr payloadJson "action_id"
      let success ← getBool payloadJson "success"
      let message ← getOptStr payloadJson "message"
      let dt ← getOptJson payloadJson "data"
      pure (ServiceToDashboardMessage.actionResult timestamp
        ⟨session_id, action_id, success, message, dt⟩)
  | _ => none

def serializeServiceToDashboardMessage : ServiceToDashboardMessage → Json
  | ServiceToDashboardMessage.sync payload =>
      Json.obj [("type", Json.str "SYNC"),
        ("payload", Json.obj [("sessions",
          Json.arr (payload.sessions.map serializeSessionInfo))])]
  | ServiceToDashboardMessage.sessionStarted payload =>
      Json.obj [("type", Json.str "SESSION_STARTED"),
        ("payload", Json.obj [("session", serializeSessionInfo payload.session)])]
  | ServiceToDashboardMessage.sessionResumed payload =>
      Json.obj [("type", Json.str "SESSION_RESUMED"),
        ("payload", Json.obj [("session", serializeSessionInfo payload.session)])]
  | ServiceToDashboardMessage.sessionData timestamp payload =>
      Json.obj [("type", Json.str "SESSION_DATA"),
        ("timestamp", Json.str timestamp),
        ("payload", Json.obj [("session_id", Json.str payload.session_id),
          ("data", payload.data)])]
  | ServiceToDashboardMessage.sessionLog timestamp payload =>
      Json.obj [("type", Json.str "SESSION_LOG"),
        ("timestamp", Json.str timestamp),
        ("payload", Json.obj [("session_id", Json.str payload.session_id),
          ("log", serializeLogEntry payload.log)])]
  | ServiceToDashboardMessage.sessionEnded timestamp payload =>
      Json.obj [("type", Json.str "SESSION_ENDED"),
        ("timestamp", Json.str timestamp),
        ("payload", Json.obj [("session_id", Json.str payload.session_id)])]
  | ServiceToDashboardMessage.actionResult timestamp payload =>
      Json.obj [("type", Json.str "ACTION_RESULT"),
        ("timestamp", Json.str timestamp),
        ("payload", Json.obj [("session_id", Json.str payload.session_id),
          ("action_id", Json.str payload.action_id),
          ("success", Json.bool payload.success),
          ("message", serializeOptStr payload.message),
          ("data", serializeOptJson payload.data)])]

def parseDashboardToServiceMessage (j : Json) :
    Option DashboardToServiceMessage := do
  let t ← getStr j "type"
  match t with
  | "ACTION" => do
      let payloadJson ← j.get? "payload"
      let session_id ← getStr payloadJson "session_id"
      let action_id ← getStr payloadJson "action_id"
      let action ← getStr payloadJson "action"
      let args ← getOptJson payloadJson "args"
      pure (DashboardToServiceMessage.action ⟨session_id, action_id, action, args⟩)
  | _ => none

def serializeDashboardToServiceMessage : DashboardToServiceMessage → Json
  | DashboardToServiceMessage.action payload =>
      Json.obj [("type", Json.str "ACTION"),
        ("payload", Json.obj [("session_id", Json.str payload.session_id),
          ("action_id", Json.str payload.action_id),
          ("action", Json.str payload.action),
          ("args", serializeOptJson payload.args)])]

/-- Parse-then-serialize on a producer frame. -/
def roundtripApp (j : Json) : Option Json :=
  (parseAppMessage j).map serializeAppMessage

def roundtripServiceToApp (j : Json) : Option Json :=
  (parseServiceToAppMessage j).map serializeServiceToAppMessage

def roundtripServiceToDashboard (j : Json) : Option Json :=
  (parseServiceToDashboardMessage j).map serializeServiceToDashboardMessage

def roundtripDashboardToService (j : Json) : Option Json :=
  (parseDashboardToServiceMessage j).map serializeDashboardToServiceMessage

-- === Concrete wire-message examples (spec section 4.1) ===

/-- The device object used by the concrete examples. -/
def exDevice : Json :=
  Json.obj [("device_id", Json.str "d1"),
    ("manufacturer", Json.str "Google"),
    ("model", Json.str "Pixel 5"),
    ("android_version", Json.str "13"),
    ("api_level", Json.num 33),
    ("is_emulator", Json.bool false)]

def exRegister : Json :=
  Json.obj [("type", Json.str "REGISTER"),
    ("timestamp", Json.str "2024-12-02T14:30:00Z"),
    ("payload", Json.obj [("protocol_version", Json.str "1.0"),
      ("app_name", Json.str "Test App"),
      ("package_name", Json.str "com.test.app"),
      ("version_name", Json.str "1.0.0"),
      ("device", exDevice),
      ("dashboard", Json.obj [("sections", Json.arr [])])])]

def exData : Json :=
  Json.obj [("type", Json.str "DATA"),
    ("timestamp", Json.str "2024-12-02T14:30:01Z"),
    ("session_id", Json.str "s1"),
    ("payload", Json.obj [("memory", Json.obj [
      ("heap_max", Json.num 5000000),
      ("heap_used", Json.num 1000000)])])]

def exLog : Json :=
  Json.obj [("type", Json.str "LOG"),
    ("timestamp", Json.str "2024-12-02T14:30:02Z"),
    ("session_id", Json.str "s1"),
    ("payload", Json.obj [("level", Json.str "ERROR"),
      ("tag", Json.str "NetworkClient"),
      ("message", Json.str "Connection timeout"),
      ("throwable", Json.null)])]

def exActionResult : Json :=
  Json.obj [("type", Json.str "ACTION_RESULT"),
    ("timestamp", Json.str "2024-12-02T14:30:03Z"),
    ("session_id", Json.str "s1"),
    ("payload", Json.obj [("action_id", Json.str "a1"),
      ("success", Json.bool true),
      ("message", Json.str "Cache cleared successfully"),
      ("data", Json.null)])]

def exRegistered : Json :=
  Json.obj [("type", Json.str "REGISTERED"),
    ("timestamp", Json.str "2024-12-02T14:30:00Z"),
    ("payload", Json.obj [("session_id", Json.str "s1")])]

def exAction : Json :=
  Json.obj [("type", Json.str "ACTION"),
    ("timestamp", Json.str "2024-12-02T14:30:04Z"),
    ("session_id", Json.str "s1"),
    ("payload", Json.obj [("action_id", Json.str "a1"),
      ("action", Json.str "clear_cache"),
      ("args", Json.obj [("type", Json.str "all")])])]

def exError : Json :=
  Json.obj [("type", Json.str "ERROR"),
    ("timestamp", Json.str "2024-12-02T14:30:05Z"),
    ("payload", Json.obj [("code", Json.str "PROTOCOL_ERROR"),
      ("message", Json.str "unexpected frame")])]

/-- A `SessionInfo` object as carried by SYNC / SESSION_STARTED /
SESSION_RESUMED. -/
def exSessionInfo : Json :=
  Json.obj [("session_id", Json.str "s1"),
    ("app_name", Json.str "Test App"),
    ("package_name", Json.str "com.test.app"),
    ("version_name", Json.str "1.0.0"),
    ("device", exDevice),
    ("dashboard", Json.obj [("sections", Json.arr [])]),
    ("started_at", Json.str "2024-12-02T14:30:00Z"),
    ("latest_data", Json.obj [("value", Json.num 1)]),
    ("recent_logs", Json.arr [Json.obj [
      ("timestamp", Json.str "2024-12-02T14:30:02Z"),
      ("level", Json.str "ERROR"),
      ("tag", Json.str "NetworkClient"),
      ("message", Json.str "Connection timeout"),
      ("throwable", Json.null)]])]

def exSync : Json :=
  Json.obj [("type", Json.str "SYNC"),
    ("payload", Json.obj [("sessions", Json.arr [exSessionInfo])])]

def exSessionStarted : Json :=
  Json.obj [("type", Json.str "SESSION_STARTED"),
    ("payload", Json.obj [("session", exSessionInfo)])]

def exSessionResumed : Json :=
  Json.obj [("type", Json.str "SESSION_RESUMED"),
    ("payload", Json.obj [("session", exSessionInfo)])]

def exSessionData : Json :=
  Json.obj [("type", Json.str "SESSION_DATA"),
    ("timestamp", Json.str "2024-12-02T14:30:01Z"),
    ("payload", Json.obj [("session_id", Json.str "s1"),
      ("data", Json.obj [("memory", Json.obj [
        ("heap_max", Json.num 5000000),
        ("heap_used", Json.num 1000000)])])])]

def exSessionLog : Json :=
  Json.obj [("type", Json.str "SESSION_LOG"),
    ("timestamp", Json.str "2024-12-02T14:30:02Z"),
    ("payload", Json.obj [("session_id", Json.str "s1"),
      ("log", Json.obj [("timestamp", Json.str "2024-12-02T14:30:02Z"),
        ("level", Json.str "ERROR"),
        ("tag", Json.str "NetworkClient"),
        ("message", Json.str "Connection timeout"),
        ("throwable", Json.null)])])]

def exSessionEnded : Json :=
  Json.obj [("type", Json.str "SESSION_ENDED"),
    ("timestamp", Json.str "2024-12-02T14:30:06Z"),
    ("payload", Json.obj [("session_id", Json.str "s1")])]

def exDashboardAction : Json :=
  Json.obj [("type", Json.str "ACTION"),
    ("payload", Json.obj [("session_id", Json.str "s1"),
      ("action_id", Json.str "a1"),
      ("action", Json.str "clear_cache"),
      ("args", Json.obj [("type", Json.str "all")])])]

-- === Concrete registry states (used by the witnesses) ===

def devSample : DeviceInfo := ⟨"d1", "Google", "Pixel 5", "13", 33, false⟩

def regSample : RegisterPayload :=
  ⟨"1.0", "Test App", "com.test.app", "1.0.0", devSample, Json.obj []⟩

/-- A register payload for the same `(device_id, package_name)` key as
`regSample` but with different identity fields and schema. -/
def regSampleAltered : RegisterPayload :=
  ⟨"2.0", "Other App", "com.test.app", "9.9.9",
    ⟨"d1", "Samsung", "S24", "14", 34, true⟩, Json.str "other-schema"⟩

/-- A live session as minted by the first registration. -/
def sessSample : Session := Session.new regSample 1000 50000 7 "id-1" 0

/-- The same session after its producer disconnected at time 0. -/
def sessEnded : Session := sessSample.end' 0

/-- A registry holding just `sessEnded`, with a 10-second TTL. -/
def mgrEnded : SessionManager := ⟨[("id-1", sessEnded)], [], 1000, 50000, 10⟩

-- ======================= Theorems =======================

/-- C7: `resume(new_outbox)` clears `ended_at` and installs the new producer
outbox, and leaves `id`, `started_at`, the data ring buffer, the log ring
buffer and the dashboard schema exactly as they were. -/
theorem resume_frame_effect (s : Session) (new_outbox : Nat) :
    (s.resume new_outbox).ended_at = none
  ∧ (s.resume new_outbox).app_sender = some new_outbox
  ∧ (s.resume new_outbox).id = s.id
  ∧ (s.resume new_outbox).started_at = s.started_at
  ∧ (s.resume new_outbox).data_buffer = s.data_buffer
  ∧ (s.resume new_outbox).log_buffer = s.log_buffer
  ∧ (s.resume new_outbox).dashboard_schema = s.dashboard_schema :=
  ⟨rfl, rfl, rfl, rfl, rfl, rfl, rfl⟩

/-- C8: serializing the parse of each concrete section-4.1 wire-message
example yields the original frame: `serialize(parse(x)) = x` for REGISTER,
DATA, LOG, ACTION_RESULT, REGISTERED, ACTION, ERROR, SYNC, SESSION_STARTED,
SESSION_RESUMED, SESSION_DATA, SESSION_LOG, SESSION_ENDED and the dashboard
ACTION. -/
theorem protocol_examples_roundtrip :
    roundtripApp exRegister = some exRegister
  ∧ roundtripApp exData = some exData
  ∧ roundtripApp exLog = some exLog
  ∧ roundtripApp exActionResult = some exActionResult
  ∧ roundtripServiceToApp exRegistered = some exRegistered
  ∧ roundtripServiceToApp exAction = some exAction
  ∧ roundtripServiceToApp exError = some exError
  ∧ roundtripServiceToDashboard exSync = some exSync
  ∧ roundtripServiceToDashboard exSessionStarted = some exSessionStarted
  ∧ roundtripServiceToDashboard exSessionResumed = some exSessionResumed
  ∧ roundtripServiceToDashboard exSessionData = some exSessionData
  ∧ roundtripServiceToDashboard exSessionLog = some exSessionLog
  ∧ roundtripServiceToDashboard exSessionEnded = some exSessionEnded
  ∧ roundtripDashboardToService exDashboardAction = some exDashboardAction :=
  ⟨rfl, rfl, rfl, rfl, rfl, rfl, rfl, rfl, rfl, rfl, rfl, rfl, rfl, rfl⟩

/-- C6: `validate()` on a LOG fails with `LogMessageTooLarge` exactly when the
message exceeds 64 KiB, otherwise with `LogThrowableTooLarge` exactly when a
throwable is present and exceeds 256 KiB, and succeeds exactly when both
bounds hold (so the 64 KiB / 256 KiB boundary values are accepted and one
byte more is rejected); every non-LOG message validates Ok; and on a
validation failure the handler keeps the manager unchanged, broadcasts
nothing and keeps the channel open. -/
theorem validate_spec (ts sid : String) (p : LogPayload) (msg : AppMessage) :
    ((AppMessage.log ts sid p).validate
        = Except.error ValidationError.logMessageTooLarge ↔
      p.message.utf8ByteSize > MAX_LOG_MESSAGE_SIZE)
  ∧ ((AppMessage.log ts sid p).validate
        = Except.error ValidationError.logThrowableTooLarge ↔
      (p.message.utf8ByteSize ≤ MAX_LOG_MESSAGE_SIZE ∧
        ∃ t, p.throwable = some t ∧ t.utf8ByteSize > MAX_LOG_THROWABLE_SIZE))
  ∧ ((AppMessage.log ts sid p).validate = Except.ok () ↔
      (p.message.utf8ByteSize ≤ MAX_LOG_MESSAGE_SIZE ∧
        ∀ t, p.throwable = some t → t.utf8ByteSize ≤ MAX_LOG_THROWABLE_SIZE))
  ∧ ((∀ ts' sid' p', msg ≠ AppMessage.log ts' sid' p') →
      msg.validate = Except.ok ())
  ∧ (∀ (m : SessionManager) (bound : String) (e : ValidationError),
      msg.validate = Except.error e →
      appFrameStep m bound (AppFrame.text (some msg))
        = (m, [], LoopCtl.keepOpen)) := by
  refine ⟨?_, ?_, ?_, ?_, ?_⟩
  · by_cases h1 : p.message.utf8ByteSize > MAX_LOG_MESSAGE_SIZE
    · simp [AppMessage.validate, h1]
    · cases hth : p.throwable with
      | none => simp [AppMessage.validate, h1, hth]
      | some t =>
          by_cases h2 : t.utf8ByteSize > MAX_LOG_THROWABLE_SIZE
          · simp [AppMessage.validate, h1, hth, h2]
          · simp [AppMessage.validate, h1, hth, h2]
  · by_cases h1 : p.message.utf8ByteSize > MAX_LOG_MESSAGE_SIZE
    · simp [AppMessage.validate, h1]
    · cases hth : p.throwable with
      | none => simp [AppMessage.validate, h1, hth]
      | some t =>
          by_cases h2 : t.utf8ByteSize > MAX_LOG_THROWABLE_SIZE
          · simp [AppMessage.validate, h1, hth, h2] <;> omega
          · simp [AppMessage.validate, h1, hth, h2] <;> omega
  · by_cases h1 : p.message.utf8ByteSize > MAX_LOG_MESSAGE_SIZE
    · simp [AppMessage.validate, h1]
    · cases hth : p.throwable with
      | none =>
          simp [AppMessage.validate, h1, hth] <;> omega
      | some t =>
          by_cases h2 : t.utf8ByteSize > MAX_LOG_THROWABLE_SIZE
          · simp [AppMessage.validate, h1, hth, h2] <;> omega
          · simp [AppMessage.validate, h1, hth, h2] <;> omega
  · intro hnl
    cases msg with
    | register ts' p' => rfl
    | data ts' sid' p' => rfl
    | actionResult ts' sid' p' => rfl
    | log ts' sid' p' => exact absurd rfl (hnl ts' sid' p')
  · intro m bound e h
    simp [appFrameStep, registeredAppStep, h]

/-- Lemma: `updateSession` rewrites exactly the entry found under the key: looking
the key up afterwards yields the rewritten session. -/
theorem find?_updateSession (l : List (String × Session)) (k : String)
    (f : Session → Session) :
    (updateSession l k f).find? (fun p => p.1 == k)
      = (l.find? (fun p => p.1 == k)).map (fun p => (p.1, f p.2)) := by
  induction l with
  | nil => rfl
  | cons a l ih =>
      by_cases h : a.1 == k
      · simp [updateSession, List.find?, h]
      · simpa [updateSession, List.find?, h] using ih

/-- C10: a consumer ACTION named `"network_clear"` whose target session
exists but is detached still clears the session's network-request ring, while
the ACTION itself is dropped without being enqueued to any producer. -/
theorem network_clear_on_detached_session (m : SessionManager)
    (payload : DashboardActionPayload) (now : String) (s : Session)
    (hact : payload.action = "network_clear")
    (hget : m.get_session payload.session_id = some s)
    (hdet : s.app_sender = none) :
    (dashboardActionStep m payload now).2 = none
  ∧ (dashboardActionStep m payload now).1.get_session payload.session_id
      = some (s.clear_network_requests)
  ∧ (s.clear_network_requests).network_requests.items = []
  ∧ (s.clear_network_requests).app_sender = s.app_sender
  ∧ (s.clear_network_requests).ended_at = s.ended_at := by
  have hget' : ({ m with
        sessions :=
          updateSession m.sessions payload.session_id
            Session.clear_network_requests } : SessionManager).get_session
        payload.session_id = some (s.clear_network_requests) := by
    simp only [SessionManager.get_session] at hget ⊢
    rw [find?_updateSession]
    cases hf : m.sessions.find? (fun p => p.1 == payload.session_id) with
    | none => simp [hf] at hget
    | some q =>
        simp only [hf, Option.map_some] at hget ⊢
        simp at hget
        simp [hget]
  refine ⟨?_, ?_, rfl, rfl, rfl⟩
  · simp [dashboardActionStep, hact, hget', Session.clear_network_requests, hdet]
  · simp [dashboardActionStep, hact, hget', Session.clear_network_requests, hdet]

/-- C10 witness: in a registry holding the single detached session
`sessEnded`, a `"network_clear"` ACTION targeting it clears the ring and
enqueues nothing. -/
theorem network_clear_on_detached_session_witness :
    (dashboardActionStep mgrEnded ⟨"id-1", "a9", "network_clear", none⟩ "t").2
        = none
  ∧ (dashboardActionStep mgrEnded ⟨"id-1", "a9", "network_clear", none⟩
        "t").1.get_session "id-1" = some (sessEnded.clear_network_requests)
  ∧ (sessEnded.clear_network_requests).network_requests.items = []
  ∧ (sessEnded.clear_network_requests).app_sender = sessEnded.app_sender
  ∧ (sessEnded.clear_network_requests).ended_at = sessEnded.ended_at :=
  network_clear_on_detached_session mgrEnded
    ⟨"id-1", "a9", "network_clear", none⟩ "t" sessEnded rfl rfl rfl

/-- C5 counterexample: with a 10-second TTL, a session that ended at time 0 is
removed by a sweep at exactly 10 seconds (10000 ms), although its age does not
exceed the TTL — the claim says such a session is retained. -/
theorem cleanup_removes_at_exact_ttl :
    sessEnded.ended_at = some 0
  ∧ mgrEnded.ended_session_ttl_seconds = 10
  ∧ ¬ (numSeconds ((10000 : Int) - 0)
        > (mgrEnded.ended_session_ttl_seconds : Int))
  ∧ (mgrEnded.cleanup_ended_sessions 10000).sessions = [] :=
  ⟨rfl, rfl, by decide, rfl⟩

/-- C5 (amended): `cleanup_ended_sessions(now)` keeps a session exactly when
it is active or its whole-second age since ending is strictly below the TTL
(so it removes exactly the ended sessions with `now − ended_at ≥ TTL`,
including the one aged exactly TTL, and never removes an active session), and
it introduces no new sessions. -/
theorem cleanup_removes_iff_elapsed_ge_ttl (m : SessionManager) (now : Int)
    (p : String × Session) (hp : p ∈ m.sessions) (q : String × Session)
    (hq : q ∈ (m.cleanup_ended_sessions now).sessions) :
    (p ∈ (m.cleanup_ended_sessions now).sessions ↔
      (p.2.ended_at = none ∨ ∃ e, p.2.ended_at = some e ∧
        numSeconds (now - e) < (m.ended_session_ttl_seconds : Int)))
  ∧ q ∈ m.sessions := by
  constructor
  · simp only [SessionManager.cleanup_ended_sessions, List.mem_filter]
    constructor
    · rintro ⟨-, hpred⟩
      cases he : p.2.ended_at with
      | none => exact Or.inl rfl
      | some e =>
          exact Or.inr ⟨e, rfl, by simpa [he] using hpred⟩
    · rintro (h | ⟨e, he, hlt⟩)
      · exact ⟨hp, by simp [h]⟩
      · exact ⟨hp, by simp [he, hlt]⟩
  · exact List.mem_of_mem_filter hq

/-- C5 witness: a sweep at 5 seconds keeps the session that ended at time 0
under a 10-second TTL. -/
theorem cleanup_removes_iff_elapsed_ge_ttl_witness :
    ((("id-1", sessEnded) ∈ (mgrEnded.cleanup_ended_sessions 5000).sessions ↔
      (sessEnded.ended_at = none ∨ ∃ e, sessEnded.ended_at = some e ∧
        numSeconds (5000 - e) < (mgrEnded.ended_session_ttl_seconds : Int)))
  ∧ ("id-1", sessEnded) ∈ mgrEnded.sessions) :=
  cleanup_removes_iff_elapsed_ge_ttl mgrEnded 5000 ("id-1", sessEnded)
    (List.mem_singleton.mpr rfl) ("id-1", sessEnded)
    (List.mem_singleton.mpr rfl)

/-- After `n` pushes into a well-formed buffer the contents are the last
`capacity` elements of the old contents followed by the pushed elements. -/
theorem pushAll_items_eq {α : Type} (c : Nat) (hc : 1 ≤ c) :
    ∀ (xs init : List α), init.length ≤ c →
      (RingBuffer.pushAll ⟨init, c⟩ xs).items
        = (init ++ xs).drop (init.length + xs.length - c) := by
  intro xs
  induction xs with
  | nil =>
      intro init h
      simp [RingBuffer.pushAll, Nat.sub_eq_zero_of_le h]
  | cons x xs ih =>
      intro init h
      by_cases hf : init.length ≥ c
      · have hl : init.length = c := Nat.le_antisymm h hf
        have hpush : RingBuffer.push ⟨init, c⟩ x = ⟨init.tail ++ [x], c⟩ := by
          simp [RingBuffer.push, hf]
        have hlen : (init.tail ++ [x]).length ≤ c := by
          simp [List.length_tail]
          omega
        have h1 : RingBuffer.pushAll ⟨init, c⟩ (x :: xs)
            = RingBuffer.pushAll ⟨init.tail ++ [x], c⟩ xs := by
          simp [RingBuffer.pushAll, List.foldl_cons, hpush]
        rw [h1, ih (init.tail ++ [x]) hlen]
        obtain ⟨a, t, rfl⟩ : ∃ a t, init = a :: t := by
          cases init with
          | nil => simp at hl; omega
          | cons a t => exact ⟨a, t, rfl⟩
        have hlc : t.length + 1 = c := by simpa using hl
        have hA : ((a :: t).tail ++ [x]).length + xs.length - c = xs.length := by
          simp
          omega
        have hB : (a :: t).length + (x :: xs).length - c = xs.length + 1 := by
          simp
          omega
        rw [hA, hB]
        simp only [List.tail_cons, List.cons_append, List.drop_succ_cons,
          List.append_assoc, List.singleton_append, List.nil_append]
      · push_neg at hf
        have hpush : RingBuffer.push ⟨init, c⟩ x = ⟨init ++ [x], c⟩ := by
          simp [RingBuffer.push, Nat.not_le.mpr hf]
        have hlen : (init ++ [x]).length ≤ c := by
          simp
          omega
        have h1 : RingBuffer.pushAll ⟨init, c⟩ (x :: xs)
            = RingBuffer.pushAll ⟨init ++ [x], c⟩ xs := by
          simp [RingBuffer.pushAll, List.foldl_cons, hpush]
        rw [h1, ih (init ++ [x]) hlen]
        have hconc : (init ++ [x]) ++ xs = init ++ x :: xs := by simp
        rw [hconc]
        congr 1
        simp
        omega

/-- C2: for capacity `c ≥ 1`, after `n` pushes the buffer holds the last
`min(n, c)` pushed elements in push order (so `len` never exceeds `c`), and a
push into a full buffer drops the front element first. -/
theorem ringBuffer_push_law {α : Type} (c : Nat) (xs : List α)
    (b : RingBuffer α) (x : α) (hc : 1 ≤ c) (hb : b.len = b.capacity) :
    ((RingBuffer.new α c).pushAll xs).items = xs.drop (xs.length - c)
  ∧ ((RingBuffer.new α c).pushAll xs).len = min xs.length c
  ∧ (b.push x).items = b.items.tail ++ [x] := by
  have h0 := pushAll_items_eq c hc xs [] (by simp)
  have hitems : ((RingBuffer.new α c).pushAll xs).items
      = xs.drop (xs.length - c) := by
    simpa [RingBuffer.new] using h0
  refine ⟨hitems, ?_, ?_⟩
  · simp [RingBuffer.len, hitems, List.length_drop]
    omega
  · simp only [RingBuffer.len] at hb
    simp [RingBuffer.push, hb]

/-- C2 witness: five pushes into a capacity-3 buffer leave the last three in
order, and a push into a full buffer drops the front first. -/
theorem ringBuffer_push_law_witness :
    ((1 : Nat) ≤ 3
      ∧ (RingBuffer.mk [9, 8, 7] 3 : RingBuffer Nat).len
          = (RingBuffer.mk [9, 8, 7] 3 : RingBuffer Nat).capacity)
  ∧ (((RingBuffer.new Nat 3).pushAll [1, 2, 3, 4, 5]).items = [3, 4, 5]
      ∧ ((RingBuffer.new Nat 3).pushAll [1, 2, 3, 4, 5]).len = min 5 3
      ∧ ((RingBuffer.mk [9, 8, 7] 3).push 0).items = [8, 7, 0]) :=
  ⟨⟨by decide, rfl⟩,
    ringBuffer_push_law 3 [1, 2, 3, 4, 5] (RingBuffer.mk [9, 8, 7] 3) 0
      (by decide) rfl⟩

/-- Lemma: `updateSession` preserves a per-session `all` when the rewrite
re-establishes the predicate unconditionally. -/
theorem all_updateSession (l : List (String × Session)) (k : String)
    (f : Session → Session) (p : Session → Bool)
    (hl : l.all (fun q => p q.2) = true) (hf : ∀ s, p (f s) = true) :
    (updateSession l k f).all (fun q => p q.2) = true := by
  simp only [updateSession, List.all_eq_true] at hl ⊢
  intro q hq
  obtain ⟨b, hb, rfl⟩ := List.mem_map.mp hq
  by_cases h : b.1 == k
  · simp [h, hf]
  · simp [h]
    exact hl b hb

/-- Lemma: `insertSession` preserves a per-session `all` when the inserted session
satisfies the predicate. -/
theorem all_insertSession (l : List (String × Session)) (k : String)
    (v : Session) (p : Session → Bool)
    (hl : l.all (fun q => p q.2) = true) (hv : p v = true) :
    (insertSession l k v).all (fun q => p q.2) = true := by
  simp only [insertSession]
  by_cases h : l.any (fun q => q.1 == k)
  · simp only [if_pos h, List.all_eq_true]
    intro q hq
    obtain ⟨b, hb, rfl⟩ := List.mem_map.mp hq
    by_cases hk : b.1 == k
    · simp [hk, hv]
    · simp [hk]
      exact List.all_eq_true.mp hl b hb
  · simp only [if_neg h, List.all_append, hl, Bool.true_and, List.all_cons,
      List.all_nil, Bool.and_true]
    exact hv

/-- C1: in every registry state reachable by the public operations
(`SessionManager::new`, `create_session` — which performs `Session::new` or
`Session::resume` — and `end_session` — which performs `Session::end`), every
session is ended exactly when its producer outbox is `None`. -/
theorem session_lifecycle_invariant (m : SessionManager) (h : Reachable m) :
    m.sessions.all (fun p => sessionLifecycleInv p.2) = true := by
  induction h with
  | init d l ttl => rfl
  | create m register app_sender freshId now hr ih =>
      cases hfind : m.sessions.find? (fun p => resumableFor register p.2) with
      | some pr =>
          obtain ⟨sid, s0⟩ := pr
          simp only [SessionManager.create_session, hfind]
          exact all_updateSession m.sessions sid (fun s => s.resume app_sender)
            sessionLifecycleInv ih (fun s => rfl)
      | none =>
          simp only [SessionManager.create_session, hfind]
          exact all_insertSession m.sessions freshId _ sessionLifecycleInv ih rfl
  | end_step m session_id now hr ih =>
      exact all_updateSession m.sessions session_id (fun s => s.end' now)
        sessionLifecycleInv ih (fun s => rfl)

/-- C1 witness: the invariant holds in the concrete state reached by one
registration followed by ending that session. -/
theorem session_lifecycle_invariant_witness :
    (((SessionManager.new 1000 50000 3600).create_session regSample 7 "id-1"
        0).2.end_session "id-1" 5).sessions.all
      (fun p => sessionLifecycleInv p.2) = true :=
  session_lifecycle_invariant _
    (Reachable.end_step _ "id-1" 5
      (Reachable.create _ regSample 7 "id-1" 0
        (Reachable.init 1000 50000 3600)))

/-- C3: `create_session` returns `resumed = true` together with an existing
session's id exactly when some registered session is ended and matches the
REGISTER payload's `device.device_id` and `package_name` (that session is
then resumed in place); otherwise it returns the freshly minted id,
`resumed = false`, and inserts the new session. -/
theorem create_session_resume_iff (m : SessionManager)
    (register : RegisterPayload) (app_sender : Nat) (freshId : String)
    (now : Int) :
    ((m.create_session register app_sender freshId now).1.2 = true ↔
      ∃ p ∈ m.sessions, p.2.ended_at.isSome = true
        ∧ p.2.device.device_id = register.device.device_id
        ∧ p.2.package_name = register.package_name)
  ∧ ((m.create_session register app_sender freshId now).1.2 = true →
      ∃ p ∈ m.sessions, p.2.ended_at.isSome = true
        ∧ p.2.device.device_id = register.device.device_id
        ∧ p.2.package_name = register.package_name
        ∧ (m.create_session register app_sender freshId now).1.1 = p.1
        ∧ (m.create_session register app_sender freshId now).2.sessions
            = updateSession m.sessions p.1 (fun s => s.resume app_sender))
  ∧ ((m.create_session register app_sender freshId now).1.2 = false →
      (m.create_session register app_sender freshId now).1.1 = freshId
      ∧ (m.create_session register app_sender freshId now).2.sessions
          = insertSession m.sessions freshId
              (Session.new register m.data_buffer_size m.log_buffer_size
                app_sender freshId now)) := by
  cases hfind : m.sessions.find? (fun p => resumableFor register p.2) with
  | some pr =>
      obtain ⟨sid, s0⟩ := pr
      have hmem := List.mem_of_find?_eq_some hfind
      have hpred := List.find?_some hfind
      simp only [resumableFor, Bool.and_eq_true, beq_iff_eq] at hpred
      refine ⟨?_, ?_, ?_⟩
      · simp only [SessionManager.create_session, hfind]
        constructor
        · intro _
          exact ⟨(sid, s0), hmem, hpred.1.1, hpred.1.2, hpred.2⟩
        · intro _
          trivial
      · intro _
        refine ⟨(sid, s0), hmem, hpred.1.1, hpred.1.2, hpred.2, ?_, ?_⟩
        · simp [SessionManager.create_session, hfind]
        · simp [SessionManager.create_session, hfind]
      · intro hfalse
        simp [SessionManager.create_session, hfind] at hfalse
  | none =>
      have hnone := List.find?_eq_none.mp hfind
      refine ⟨?_, ?_, ?_⟩
      · simp only [SessionManager.create_session, hfind]
        constructor
        · intro hF
          exact absurd hF Bool.false_ne_true
        · rintro ⟨p, hp, h1, h2, h3⟩
          have hc := hnone p hp
          simp [resumableFor, h1, h2, h3] at hc
      · intro hT
        simp [SessionManager.create_session, hfind] at hT
      · intro _
        constructor
        · simp [SessionManager.create_session, hfind]
        · simp [SessionManager.create_session, hfind]

/-- C9: when `create_session` resumes, the new REGISTER payload is discarded
apart from the matching key: the returned id is the old session's, the stored
session is exactly the old one with `ended_at` cleared and the new outbox
installed, and it keeps its original `app_name`, `version_name`, device info
and dashboard schema. -/
theorem resume_discards_new_register_payload (m : SessionManager)
    (register : RegisterPayload) (app_sender : Nat) (freshId : String)
    (now : Int) (k : String) (s : Session)
    (hfind : m.sessions.find? (fun p => resumableFor register p.2)
      = some (k, s))
    (hget : m.get_session k = some s) :
    (m.create_session register app_sender freshId now).1 = (k, true)
  ∧ (m.create_session register app_sender freshId now).2.get_session k
      = some (s.resume app_sender)
  ∧ (s.resume app_sender).app_name = s.app_name
  ∧ (s.resume app_sender).version_name = s.version_name
  ∧ (s.resume app_sender).device = s.device
  ∧ (s.resume app_sender).dashboard_schema = s.dashboard_schema := by
  refine ⟨?_, ?_, rfl, rfl, rfl, rfl⟩
  · simp [SessionManager.create_session, hfind]
  · simp only [SessionManager.create_session, hfind]
    simp only [SessionManager.get_session] at hget ⊢
    rw [find?_updateSession]
    cases hf2 : m.sessions.find? (fun p => p.1 == k) with
    | none => simp [hf2] at hget
    | some q =>
        simp [hf2] at hget ⊢
        simp [hget]

/-- C9 witness: re-registering with different identity fields and schema
(`regSampleAltered`) resumes `sessEnded` and keeps all of its original
fields. -/
theorem resume_discards_new_register_payload_witness :
    (mgrEnded.create_session regSampleAltered 9 "id-2" 99).1 = ("id-1", true)
  ∧ (mgrEnded.create_session regSampleAltered 9 "id-2" 99).2.get_session
      "id-1" = some (sessEnded.resume 9)
  ∧ (sessEnded.resume 9).app_name = sessEnded.app_name
  ∧ (sessEnded.resume 9).version_name = sessEnded.version_name
  ∧ (sessEnded.resume 9).device = sessEnded.device
  ∧ (sessEnded.resume 9).dashboard_schema = sessEnded.dashboard_schema :=
  resume_discards_new_register_payload mgrEnded regSampleAltered 9 "id-2" 99
    "id-1" sessEnded rfl rfl

/-- Lemma: `find?` returns the designated element when it is the only one that can
satisfy the predicate. -/
theorem find?_eq_some_of_unique {α : Type} (l : List α) (p : α → Bool) (a : α)
    (ha : a ∈ l) (hp : p a = true)
    (huniq : ∀ b ∈ l, b ≠ a → p b = false) :
    l.find? p = some a := by
  induction l with
  | nil => cases ha
  | cons x l ih =>
      by_cases hxa : x = a
      · subst hxa
        simp [List.find?, hp]
      · have hpx : p x = false := huniq x (List.mem_cons_self x l) hxa
        have ha' : a ∈ l := by
          cases ha with
          | head => exact absurd rfl hxa
          | tail _ h => exact h
        simp only [List.find?, hpx]
        exact ih ha' (fun b hb => huniq b (List.mem_cons_of_mem _ hb))

/-- In an association list with nodup keys, a key determines its session. -/
theorem key_unique {l : List (String × Session)}
    (h : (l.map Prod.fst).Nodup) {k : String} {s s' : Session}
    (h1 : (k, s) ∈ l) (h2 : (k, s') ∈ l) : s = s' := by
  induction l with
  | nil => cases h1
  | cons a l ih =>
      simp only [List.map_cons, List.nodup_cons] at h
      cases h1 with
      | head =>
          cases h2 with
          | head => rfl
          | tail _ h2' =>
              exact absurd (List.mem_map.mpr ⟨(k, s'), h2', rfl⟩) h.1
      | tail _ h1' =>
          cases h2 with
          | head =>
              exact absurd (List.mem_map.mpr ⟨(k, s), h1', rfl⟩) h.1
          | tail _ h2' => exact ih h.2 h1' h2'

/-- C4 (amended): for a `(device_id, package_name)` pair whose unique
matching session ended at time `e`, a sweep at `now` followed by the next
REGISTER reuses the same session id when the age since ending is strictly
within the TTL (`now − e < TTL`), and mints a fresh id when the age is at or
beyond the TTL (`now − e ≥ TTL`; ages are milliseconds, the TTL comparison
uses whole seconds as in `cleanup_ended_sessions`). -/
theorem register_after_sweep_ttl (m : SessionManager)
    (register : RegisterPayload) (app_sender : Nat) (freshId : String)
    (now e : Int) (k : String) (s : Session)
    (hmem : (k, s) ∈ m.sessions)
    (hnodup : (m.sessions.map Prod.fst).Nodup)
    (hend : s.ended_at = some e)
    (hdev : s.device.device_id = register.device.device_id)
    (hpkg : s.package_name = register.package_name)
    (huniq : ∀ p ∈ m.sessions, p.1 ≠ k → resumableFor register p.2 = false)
    (hpast : 0 ≤ now - e) :
    (now - e < (m.ended_session_ttl_seconds : Int) * 1000 →
      ((m.cleanup_ended_sessions now).create_session register app_sender
        freshId now).1 = (k, true))
  ∧ ((m.ended_session_ttl_seconds : Int) * 1000 ≤ now - e →
      ((m.cleanup_ended_sessions now).create_session register app_sender
        freshId now).1 = (freshId, false)) := by
  have htdiv : numSeconds (now - e) = (now - e) / 1000 :=
    Int.tdiv_eq_ediv hpast (by decide)
  constructor
  · intro hage
    have hsec : numSeconds (now - e) < (m.ended_session_ttl_seconds : Int) := by
      rw [htdiv]
      omega
    have hkeep : (k, s) ∈ (m.cleanup_ended_sessions now).sessions := by
      simp only [SessionManager.cleanup_ended_sessions, List.mem_filter]
      exact ⟨hmem, by simp [hend, hsec]⟩
    have hres : resumableFor register s = true := by
      simp [resumableFor, hend, hdev, hpkg]
    have hfind : (m.cleanup_ended_sessions now).sessions.find?
        (fun p => resumableFor register p.2) = some (k, s) := by
      apply find?_eq_some_of_unique _ _ _ hkeep hres
      intro b hb hne
      have hbm : b ∈ m.sessions := List.mem_of_mem_filter hb
      by_cases hbk : b.1 = k
      · obtain ⟨b1, b2⟩ := b
        exfalso
        apply hne
        have hb2 : b2 = s := key_unique hnodup (hbk ▸ hbm) hmem
        rw [hb2]
        exact congrArg (fun z => (z, s)) hbk
      · exact huniq b hbm hbk
    simp [SessionManager.create_session, hfind]
  · intro hage
    have hsec : (m.ended_session_ttl_seconds : Int) ≤ numSeconds (now - e) := by
      rw [htdiv]
      omega
    have hfindnone : (m.cleanup_ended_sessions now).sessions.find?
        (fun p => resumableFor register p.2) = none := by
      apply List.find?_eq_none.mpr
      intro b hb
      have hbm : b ∈ m.sessions := List.mem_of_mem_filter hb
      by_cases hbk : b.1 = k
      · obtain ⟨b1, b2⟩ := b
        have hb2 : b2 = s := key_unique hnodup (hbk ▸ hbm) hmem
        exfalso
        have hpred := (List.mem_filter.mp hb).2
        rw [hb2] at hpred
        simp [hend] at hpred
        omega
      · simp [huniq b hbm hbk]
    simp [SessionManager.create_session, hfindnone]

/-- C4 witness: with a 10-second TTL and a session that ended at 0, a sweep
plus REGISTER at 5 seconds resumes the old id (5000 ms is within the TTL; the
outside-TTL implication holds vacuously here). -/
theorem register_after_sweep_ttl_witness :
    ((5000 : Int) - 0 < ((mgrEnded.ended_session_ttl_seconds : Int)) * 1000 →
      ((mgrEnded.cleanup_ended_sessions 5000).create_session regSample 9
        "id-2" 5000).1 = ("id-1", true))
  ∧ (((mgrEnded.ended_session_ttl_seconds : Int)) * 1000 ≤ (5000 : Int) - 0 →
      ((mgrEnded.cleanup_ended_sessions 5000).create_session regSample 9
        "id-2" 5000).1 = ("id-2", false)) :=
  register_after_sweep_ttl mgrEnded regSample 9 "id-2" 5000 0 "id-1" sessEnded
    (List.mem_singleton.mpr rfl) (by simp [mgrEnded]) rfl rfl rfl
    (by
      intro p hp hne
      simp [mgrEnded] at hp
      subst hp
      exact absurd rfl hne)
    (by decide)

/-- C4 counterexample: a session ended at time 0 under a 10-second TTL has an
age of exactly the TTL at 10000 ms — not outside it — yet the sweep removes it
and the next REGISTER mints the fresh id instead of reusing `"id-1"`. -/
theorem register_at_exact_ttl_counterexample :
    sessEnded.ended_at = some 0
  ∧ ¬ ((10000 : Int) - 0 > (mgrEnded.ended_session_ttl_seconds : Int) * 1000)
  ∧ ((mgrEnded.cleanup_ended_sessions 10000).create_session regSample 9
      "id-2" 10000).1 = ("id-2", false) :=
  ⟨rfl, by decide, rfl⟩

end Androidoscopy
